import Mathlib

/-!
Verification of the dictionary core of django-hstore
(src/django_hstore/dict.py, fields.py, descriptors.py).

Shallow embedding: Python values become the inductive `PyVal`; exceptions
become an `Except PyError _` result; the external JSON library and the
pickle module are modelled explicitly (see the doc comments on `json.loads`,
`json.dumps` and `PyVal.pickled`).
-/

/-- The universe of Python values the dictionary core manipulates.
`float` and `decimal` carry their decimal text representation (the string
`str(x)` would produce), since no claim computes with them numerically.
`pickled v` models the bytes object `pickle.dumps(v)`: pickle is a faithful
injective encoder, so the payload is kept as data (see `pickle_loads`).
`obj id` is an opaque object (e.g. a Django model instance), identified by
an id so that distinct objects are distinguishable. -/
inductive PyVal where
  | none
  | bool (b : Bool)
  | int (n : Int)
  | float (r : String)
  | decimal (r : String)
  | str (s : String)
  | pickled (v : PyVal)
  | list (xs : List PyVal)
  | dict (xs : List (String × PyVal))
  | obj (id : Nat)
deriving Repr

/-- Python runtime types, as tested by `type(x)` / `isinstance`.
`bool` is listed separately from `int`: the source always tests
`isinstance(value, bool)` before the numeric branch, so the embedding's
disjoint constructors reproduce the source's effective branching. -/
inductive PyType where
  | noneT | boolT | intT | floatT | decimalT | strT | bytesT | listT | dictT | objT
deriving Repr, DecidableEq

/-- `type(v)` for the embedded values. -/
def PyVal.typeOf : PyVal → PyType
  | .none => .noneT
  | .bool _ => .boolT
  | .int _ => .intT
  | .float _ => .floatT
  | .decimal _ => .decimalT
  | .str _ => .strT
  | .pickled _ => .bytesT
  | .list _ => .listT
  | .dict _ => .dictT
  | .obj _ => .objT

/-- Models `django.utils.encoding.force_text` on the values the source
applies it to (booleans, numbers, decimals, and strings returned by the
JSON encoder). Other cases never reach it in the embedded code paths. -/
def force_text : PyVal → String
  | .str s => s
  | .bool b => cond b "True" "False"
  | .int n => toString n
  | .float r => r
  | .decimal r => r
  | .none => "None"
  | _ => "<object>"

/-- Models Python's `str.lower()` on the ASCII range (the only inputs the
source lowercases are `"True"` and `"False"`). -/
def lowerChar (c : Char) : Char :=
  if 'A' ≤ c ∧ c ≤ 'Z' then Char.ofNat (c.toNat + 32) else c

/-- `s.lower()` character by character. -/
def lowerText (s : String) : String := String.mk (s.data.map lowerChar)

/-- Exceptions raised by the embedded code.
`hstoreDictException` models `exceptions.HStoreDictException` with its
message and optional `json_error_message`; `hstoreModelException` models
`exceptions.HStoreModelException`; `typeError` models the `TypeError` the
JSON encoder raises on a non-serializable value; `keyError` models `KeyError`. -/
inductive PyError where
  | hstoreDictException (message : String) (json_error_message : Option String)
  | hstoreModelException (message : String)
  | typeError
  | keyError
deriving Repr, DecidableEq

/-- Python-dict assignment on an association list: replace in place if the
key exists (keeping its position), append otherwise. -/
def setEntry : List (String × PyVal) → String → PyVal → List (String × PyVal)
  | [], k, v => [(k, v)]
  | (k', v') :: rest, k, v =>
      if k' = k then (k, v) :: rest else (k', v') :: setEntry rest k v

/-- Python-dict lookup on an association list. -/
def lookupEntry : List (String × PyVal) → String → Option PyVal
  | [], _ => Option.none
  | (k', v') :: rest, k => if k' = k then some v' else lookupEntry rest k

namespace json

/-- JSON string escaping used by the encoder model. -/
def escapeChar (c : Char) : String :=
  if c = '"' then "\\\""
  else if c = '\\' then "\\\\"
  else if c = '\n' then "\\n"
  else if c = '\t' then "\\t"
  else if c = '\r' then "\\r"
  else String.mk [c]

/-- Encode a string as a JSON string literal. -/
def encodeString (s : String) : String :=
  "\"" ++ String.join (s.data.map escapeChar) ++ "\""

mutual

/-- Models the external JSON library's `json.dumps` (stdlib `json` or
`simplejson`), restricted to the fragment the claims exercise: null,
booleans, integers, floats (emitted as their stored representation),
strings (with the common escapes), arrays and objects, with the default
separators `", "` and `": "`. A value outside the JSON-serializable types
(an opaque object, a bytes value, a `Decimal` under the stdlib encoder)
makes `dumps` fail, modelling the `TypeError` the library raises. -/
def dumps : PyVal → Option String
  | .none => some "null"
  | .bool b => some (cond b "true" "false")
  | .int n => some (toString n)
  | .float r => some r
  | .str s => some (encodeString s)
  | .list xs =>
      match dumpsList xs with
      | some parts => some ("[" ++ String.intercalate ", " parts ++ "]")
      | Option.none => Option.none
  | .dict xs =>
      match dumpsObj xs with
      | some parts => some ("\x7b" ++ String.intercalate ", " parts ++ "\x7d")
      | Option.none => Option.none
  | _ => Option.none

/-- Encode the elements of a JSON array; fails if any element is
non-serializable. -/
def dumpsList : List PyVal → Option (List String)
  | [] => some []
  | v :: rest =>
      match dumps v, dumpsList rest with
      | some s, some ss => some (s :: ss)
      | _, _ => Option.none

/-- Encode the members of a JSON object; fails if any value is
non-serializable. -/
def dumpsObj : List (String × PyVal) → Option (List String)
  | [] => some []
  | (k, v) :: rest =>
      match dumps v, dumpsObj rest with
      | some s, some ss => some ((encodeString k ++ ": " ++ s) :: ss)
      | _, _ => Option.none

end

/-- JSON whitespace skipping. -/
def skipWs : List Char → List Char
  | c :: cs => if c = ' ' ∨ c = '\n' ∨ c = '\t' ∨ c = '\r' then skipWs cs else c :: cs
  | [] => []

/-- Split off a leading run of decimal digits. -/
def takeDigits : List Char → List Char × List Char
  | c :: cs =>
      if c.isDigit then
        let (ds, rest) := takeDigits cs
        (c :: ds, rest)
      else ([], c :: cs)
  | [] => ([], [])

/-- Numeric value of a digit run. -/
def natOfDigits (ds : List Char) : Nat :=
  ds.foldl (fun n c => n * 10 + (c.toNat - 48)) 0

/-- Decode a JSON string escape character. -/
def escDecode (c : Char) : Option Char :=
  if c = '"' then some '"'
  else if c = '\\' then some '\\'
  else if c = '/' then some '/'
  else if c = 'n' then some '\n'
  else if c = 't' then some '\t'
  else if c = 'r' then some '\r'
  else if c = 'b' then some (Char.ofNat 8)
  else if c = 'f' then some (Char.ofNat 12)
  else Option.none

/-- Parse the body of a JSON string literal (after the opening quote),
returning the decoded characters and the remaining input. -/
def parseStringBody : List Char → Except String (List Char × List Char)
  | [] => .error "Unterminated string"
  | '"' :: rest => .ok ([], rest)
  | '\\' :: rest =>
      match rest with
      | [] => .error "Unterminated string"
      | c :: rest2 =>
          match escDecode c with
          | some e =>
              match parseStringBody rest2 with
              | .ok (cs, r) => .ok (e :: cs, r)
              | .error e2 => .error e2
          | Option.none => .error "Invalid escape"
  | c :: rest =>
      match parseStringBody rest with
      | .ok (cs, r) => .ok (c :: cs, r)
      | .error e => .error e

/-- Parse a JSON number (integer, or fraction kept as a float with its
literal text). -/
def parseNumber (cs : List Char) : Except String (PyVal × List Char) :=
  let (neg, cs1) := match cs with
    | '-' :: rest => (true, rest)
    | rest => (false, rest)
  let (ds, cs2) := takeDigits cs1
  if ds = [] then .error "Expecting value"
  else
    match cs2 with
    | '.' :: cs3 =>
        let (fs, cs4) := takeDigits cs3
        if fs = [] then .error "Expecting value"
        else
          let text := (if neg then "-" else "") ++ String.mk ds ++ "." ++ String.mk fs
          .ok (.float text, cs4)
    | _ =>
        let n : Int := Int.ofNat (natOfDigits ds)
        .ok (.int (if neg then -n else n), cs2)

/-- Final member list of a JSON object: later duplicate keys override
earlier ones, as in the Python JSON libraries. -/
def buildObj (members : List (String × PyVal)) : List (String × PyVal) :=
  members.foldl (fun acc kv => setEntry acc kv.1 kv.2) []

mutual

/-- Fueled recursive-descent JSON value; the fuel only bounds nesting and
is chosen generously by `loads`. -/
def parseVal : Nat → List Char → Except String (PyVal × List Char)
  | 0, _ => .error "Expecting value"
  | fuel + 1, cs =>
    match skipWs cs with
    | [] => .error "Expecting value"
    | 'n' :: 'u' :: 'l' :: 'l' :: rest => .ok (.none, rest)
    | 't' :: 'r' :: 'u' :: 'e' :: rest => .ok (.bool true, rest)
    | 'f' :: 'a' :: 'l' :: 's' :: 'e' :: rest => .ok (.bool false, rest)
    | '"' :: rest =>
        match parseStringBody rest with
        | .ok (chars, r) => .ok (.str (String.mk chars), r)
        | .error e => .error e
    | '[' :: rest =>
        (match skipWs rest with
         | ']' :: r2 => .ok (.list [], r2)
         | r1 =>
            match parseVal fuel r1 with
            | .error e => .error e
            | .ok (v, r2) =>
                match parseArrayTail fuel r2 with
                | .error e => .error e
                | .ok (vs, r3) => .ok (.list (v :: vs), r3))
    | '\x7b' :: rest =>
        (match skipWs rest with
         | '\x7d' :: r2 => .ok (.dict [], r2)
         | r1 =>
            match parseMember fuel r1 with
            | .error e => .error e
            | .ok (kv, r2) =>
                match parseObjTail fuel r2 with
                | .error e => .error e
                | .ok (kvs, r3) => .ok (.dict (buildObj (kv :: kvs)), r3))
    | c :: rest =>
        if c = '-' ∨ c.isDigit then parseNumber (c :: rest)
        else .error "Expecting value"

/-- Elements of a JSON array after the first one. -/
def parseArrayTail : Nat → List Char → Except String (List PyVal × List Char)
  | 0, _ => .error "Expecting value"
  | fuel + 1, cs =>
    match skipWs cs with
    | ']' :: rest => .ok ([], rest)
    | ',' :: rest =>
        (match parseVal fuel rest with
         | .error e => .error e
         | .ok (v, r2) =>
            match parseArrayTail fuel r2 with
            | .error e => .error e
            | .ok (vs, r3) => .ok (v :: vs, r3))
    | _ => .error "Expecting delimiter"

/-- One `"key": value` member of a JSON object. -/
def parseMember : Nat → List Char → Except String ((String × PyVal) × List Char)
  | 0, _ => .error "Expecting value"
  | fuel + 1, cs =>
    match cs with
    | '"' :: rest =>
        (match parseStringBody rest with
         | .error e => .error e
         | .ok (chars, r1) =>
            match skipWs r1 with
            | ':' :: r2 =>
                (match parseVal fuel r2 with
                 | .error e => .error e
                 | .ok (v, r3) => .ok ((String.mk chars, v), r3))
            | _ => .error "Expecting colon delimiter")
    | _ => .error "Expecting property name"

/-- Members of a JSON object after the first one. -/
def parseObjTail : Nat → List Char → Except String (List (String × PyVal) × List Char)
  | 0, _ => .error "Expecting value"
  | fuel + 1, cs =>
    match skipWs cs with
    | '\x7d' :: rest => .ok ([], rest)
    | ',' :: rest =>
        (match parseMember fuel (skipWs rest) with
         | .error e => .error e
         | .ok (kv, r2) =>
            match parseObjTail fuel r2 with
            | .error e => .error e
            | .ok (kvs, r3) => .ok (kv :: kvs, r3))
    | _ => .error "Expecting delimiter"

end

/-- Models the external JSON library's `json.loads`: parses the whole
input as one JSON value (covering the fragment described at `dumps`;
no exponents or unicode escapes), rejecting empty input with the
library's "Expecting value" diagnostic and trailing garbage with
"Extra data". -/
def loads (s : String) : Except String PyVal :=
  match parseVal (s.length + 2) s.data with
  | .error e => .error e
  | .ok (v, rest) =>
      if skipWs rest = [] then .ok v else .error "Extra data"

end json

/-- The state of an `HStoreDict` (dict.py:23): the dictionary entries plus
the `field`, `instance` and `connection` attributes set by `__init__`.
The attributes are untyped in Python, so they are plain `PyVal`s here
(`inst` stands for the source's `instance`, a reserved word in Lean). -/
structure HStoreDict where
  entries : List (String × PyVal)
  field : PyVal
  inst : PyVal
  connection : PyVal
deriving Repr

/-- `HStoreDict.ensure_acceptable_value` (dict.py:85-101): booleans become
the lowercase text of `force_text`, numbers and decimals their text form,
lists and dicts their JSON encoding (the encoder's `TypeError` propagates
when a nested value is not JSON-serializable), and everything else is
passed through unchanged. -/
def HStoreDict.ensure_acceptable_value (value : PyVal) : Except PyError PyVal :=
  match value with
  | .bool b => .ok (.str (lowerText (force_text (.bool b))))
  | .int n => .ok (.str (force_text (.int n)))
  | .float r => .ok (.str (force_text (.float r)))
  | .decimal r => .ok (.str (force_text (.decimal r)))
  | .list xs =>
      match json.dumps (.list xs) with
      | some s => .ok (.str (force_text (.str s)))
      | Option.none => .error .typeError
  | .dict xs =>
      match json.dumps (.dict xs) with
      | some s => .ok (.str (force_text (.str s)))
      | Option.none => .error .typeError
  | v => .ok v

/-- The `__init__` loop `for key, val in value.items(): value[key] =
self.ensure_acceptable_value(val)` (dict.py:49-50), preserving entry
order; an exception from the coercion propagates. -/
def coerceEntries : List (String × PyVal) → Except PyError (List (String × PyVal))
  | [] => .ok []
  | (k, v) :: rest =>
      match HStoreDict.ensure_acceptable_value v with
      | .error e => .error e
      | .ok v' =>
          match coerceEntries rest with
          | .error e => .error e
          | .ok rest' => .ok ((k, v') :: rest')

/-- The input preprocessing of `HStoreDict.__init__` (dict.py:31-40): a
string must parse as JSON (a parse failure raises `HStoreDictException`
carrying the parser diagnostic) and `None` becomes an empty dict; any
other value passes through to the dict check. -/
def HStoreDict.init_convert_value (value : PyVal) : Except PyError PyVal :=
  match value with
  | .str s =>
      match json.loads s with
      | .error e =>
          .error (.hstoreDictException
            "HStoreDict accepts only valid json formatted strings." (some e))
      | .ok parsed => .ok parsed
  | .none => .ok (.dict [])
  | v => .ok v

/-- `HStoreDict.__init__` (dict.py:28-58): after the input preprocessing,
any non-dict value raises `HStoreDictException`, and each entry of a
dict is coerced through `ensure_acceptable_value` before `field`,
`instance` and `connection` are attached. -/
def HStoreDict.init (value field inst connection : PyVal) :
    Except PyError HStoreDict :=
  match HStoreDict.init_convert_value value with
  | .error e => .error e
  | .ok (.dict xs) =>
      match coerceEntries xs with
      | .error e => .error e
      | .ok ys => .ok ⟨ys, field, inst, connection⟩
  | .ok _ =>
      .error (.hstoreDictException
        "HStoreDict accepts only dictionary objects, None and json formatted string representations of json objects"
        Option.none)

/-- `HStoreDict.__setitem__` (dict.py:60-62): the value is coerced through
`ensure_acceptable_value` and then stored with plain dict assignment. -/
def HStoreDict.setitem (d : HStoreDict) (key : String) (value : PyVal) :
    Except PyError HStoreDict :=
  match HStoreDict.ensure_acceptable_value value with
  | .error e => .error e
  | .ok v' => .ok { d with entries := setEntry d.entries key v' }

/-- `HStoreDict.__unicode__` (dict.py:66-69): the empty string for an
empty dictionary, otherwise `force_text(json.dumps(self))` (whose
`TypeError` propagates when an entry is not JSON-serializable). -/
def HStoreDict.unicode (d : HStoreDict) : Except PyError String :=
  match d.entries with
  | [] => .ok ""
  | _ =>
      match json.dumps (.dict d.entries) with
      | some s => .ok (force_text (.str s))
      | Option.none => .error .typeError

/-- `HStoreDict.__copy__` (dict.py:78-79): `self.__class__(self,
self.field, self.connection)` — three positional arguments against the
signature `(value, field, instance, connection)`, so `self.connection`
is passed into the `instance` parameter and `connection` is left at its
default `None`. -/
def HStoreDict.copy (d : HStoreDict) : Except PyError HStoreDict :=
  HStoreDict.init (.dict d.entries) d.field d.connection .none

/-- `HStoreReferenceDictionary.__getitem__` (dict.py:118-126), over an
abstract resolver modelling the external collaborator
`utils.acquire_reference` (the spec treats it as a pure lookup supplied
by the surrounding system). A missing key raises `KeyError`; a string
value is resolved, written back through `__setitem__` (which coerces the
resolved object) and returned; any other value is returned as-is. The
`Nat` component counts how many times the resolver was invoked by this
call, so that the memoization claim can be stated. -/
def HStoreReferenceDictionary.getitem (acquire_reference : String → PyVal)
    (d : HStoreDict) (key : String) :
    Except PyError (PyVal × HStoreDict × Nat) :=
  match lookupEntry d.entries key with
  | Option.none => .error .keyError
  | some (.str s) =>
      let reference := acquire_reference s
      match HStoreDict.setitem d key reference with
      | .error e => .error e
      | .ok d' => .ok (reference, d', 1)
  | some v => .ok (v, d, 0)

/-- Models `pickle.loads` on the embedded values: defined exactly on the
images of `pickle.dumps` (the `pickled` constructor), where it inverts
the encoding; any other input is not a pickle and fails. -/
def pickle_loads : PyVal → Option PyVal
  | .pickled v => some v
  | _ => Option.none

/-- A validated per-key schema entry as produced by
`HStoreModeledDictionary.validate_schema` (dict.py:188-218). -/
structure SchemaOptions where
  type : PyType
  blank : Bool
  null : Bool
  default : Option PyVal
deriving Repr

/-- A per-key options dictionary as supplied to `validate_schema`,
modelled by its recognized keys (`type`, `blank`, `null`, `default`),
each `Option.none` when absent. The source's fallback replacing a
non-dict options value by `{}` corresponds to all fields absent, and its
rejection of a `type` value that is not a type object concerns inputs
outside this model. -/
structure SchemaOptionsIn where
  type : Option PyType
  blank : Option Bool
  null : Option Bool
  default : Option PyVal
deriving Repr

/-- `HStoreModeledDictionary.validate_schema` (dict.py:188-218): rejects a
missing or empty (falsy) schema with `HStoreModelException`; per key, a
missing `type` defaults to the string type (`type(self.__str__())`),
`blank` and `null` default to `False`, `default` to `None`. -/
def validate_schema (schema : Option (List (String × SchemaOptionsIn))) :
    Except PyError (List (String × SchemaOptions)) :=
  match schema with
  | Option.none =>
      .error (.hstoreModelException "No valid schema specified for HStoreModeledDictionary")
  | some [] =>
      .error (.hstoreModelException "No valid schema specified for HStoreModeledDictionary")
  | some entries =>
      .ok (entries.map fun kv =>
        (kv.1,
         { type := kv.2.type.getD .strT
           blank := kv.2.blank.getD false
           null := kv.2.null.getD false
           default := kv.2.default }))

/-- The state of an `HStoreModeledDictionary` (dict.py:135): the validated
schema plus the underlying `HStoreDict` state. -/
structure HStoreModeledDictionary where
  schema : List (String × SchemaOptions)
  entries : List (String × PyVal)
  field : PyVal
  inst : PyVal
  connection : PyVal
deriving Repr

/-- Schema lookup (`self.schema[key]`). -/
def HStoreModeledDictionary.schemaGet (d : HStoreModeledDictionary)
    (key : String) : Option SchemaOptions :=
  match d.schema.find? (fun kv => kv.1 = key) with
  | some kv => some kv.2
  | Option.none => Option.none

/-- `HStoreModeledDictionary.__init__` (dict.py:150-152): validates the
schema, then calls `super().__init__(**kwargs)` — without forwarding
`value`, `field`, `instance` or `connection`, so the base constructor
runs on its defaults (`None` everywhere) and those arguments are
discarded. -/
def HStoreModeledDictionary.init (value field inst connection : PyVal)
    (schema : Option (List (String × SchemaOptionsIn))) :
    Except PyError HStoreModeledDictionary :=
  match validate_schema schema with
  | .error e => .error e
  | .ok vschema =>
      match HStoreDict.init .none .none .none .none with
      | .error e => .error e
      | .ok base =>
          .ok ⟨vschema, base.entries, base.field, base.inst, base.connection⟩

/-- `HStoreModeledDictionary.ensure_acceptable_key` (dict.py:220-226):
a key not declared in the schema raises `HStoreModelException`. -/
def HStoreModeledDictionary.ensure_acceptable_key (d : HStoreModeledDictionary)
    (key : String) : Except PyError String :=
  match d.schemaGet key with
  | Option.none => .error (.hstoreModelException (key ++ " is not a valid key"))
  | some _ => .ok key

/-- Best-effort `str(x)` used only to build diagnostic messages. -/
def pyStr (v : PyVal) : String := force_text v

/-- `str` of a type object, used only in diagnostic messages. -/
def typeName : PyType → String
  | .noneT => "<class 'NoneType'>"
  | .boolT => "<class 'bool'>"
  | .intT => "<class 'int'>"
  | .floatT => "<class 'float'>"
  | .decimalT => "<class 'decimal.Decimal'>"
  | .strT => "<class 'str'>"
  | .bytesT => "<class 'bytes'>"
  | .listT => "<class 'list'>"
  | .dictT => "<class 'dict'>"
  | .objT => "<class 'object'>"

/-- `HStoreModeledDictionary.ensure_acceptable_value` (dict.py:228-240):
the value's runtime type must equal the schema-declared type exactly
(`type(value) is ...`), after which the value is pickled (`pickle.dumps`)
to preserve its type and the pickled bytes are passed through the base
class's `ensure_acceptable_value`. Only called after the key check, so a
key missing from the schema surfaces as `KeyError` as in the source. -/
def HStoreModeledDictionary.ensure_acceptable_value
    (d : HStoreModeledDictionary) (key : String) (value : PyVal) :
    Except PyError PyVal :=
  match d.schemaGet key with
  | Option.none => .error .keyError
  | some opts =>
      if value.typeOf = opts.type then
        HStoreDict.ensure_acceptable_value (.pickled value)
      else
        .error (.hstoreModelException
          (pyStr value ++ " is not a valid type for key " ++ key ++ ", type "
            ++ typeName opts.type ++ " expected"))

/-- `HStoreModeledDictionary.__setitem__` (dict.py:154-161): checks the
key against the schema, type-checks and pickles the value, then stores
with plain dict assignment (`super(HStoreDict, self).__setitem__`). -/
def HStoreModeledDictionary.setitem (d : HStoreModeledDictionary)
    (key : String) (value : PyVal) : Except PyError HStoreModeledDictionary :=
  match d.ensure_acceptable_key key with
  | .error e => .error e
  | .ok k =>
      match d.ensure_acceptable_value k value with
      | .error e => .error e
      | .ok v' => .ok { d with entries := setEntry d.entries k v' }

/-- `HStoreModeledDictionary._get_default_for_key` (dict.py:174-179):
the schema's default for a declared key (`None` when absent), and
`HStoreModelException` for an undeclared key. -/
def HStoreModeledDictionary.get_default_for_key (d : HStoreModeledDictionary)
    (key : String) : Except PyError PyVal :=
  match d.schemaGet key with
  | some opts => .ok (opts.default.getD .none)
  | Option.none => .error (.hstoreModelException (key ++ " is not a valid key"))

/-- `HStoreModeledDictionary.__getitem__` (dict.py:163-172): a stored
value is unpickled with `pickle.loads` (a stored value that is not a
pickle makes `loads` fail, modelled as `typeError`); a missing key
(`KeyError`) falls back to `_get_default_for_key`. -/
def HStoreModeledDictionary.getitem (d : HStoreModeledDictionary)
    (key : String) : Except PyError PyVal :=
  match lookupEntry d.entries key with
  | some v =>
      match pickle_loads v with
      | some w => .ok w
      | Option.none => .error .typeError
  | Option.none => d.get_default_for_key key

/-- The field classes of fields.py that declare a dictionary attribute. -/
inductive FieldKind where
  | dictionaryField
  | modeledDictionaryField
  | referencesField
deriving Repr, DecidableEq

/-- A field instance (fields.py): its class, an identity for the Python
object (so the wrapper's `field` back-reference can name it), and the
schema a `ModeledDictionaryField` carries. -/
structure ModelField where
  kind : FieldKind
  id : Nat
  schema : Option (List (String × SchemaOptionsIn))
deriving Repr

/-- The `_dict_class` attribute (fields.py:15, 99): `HStoreDict` for
`HStoreField`/`DictionaryField` and (by inheritance) `ReferencesField`,
`HStoreModeledDictionary` for `ModeledDictionaryField`. -/
inductive DictClass where
  | hstoreDict
  | hstoreModeledDictionary
deriving Repr, DecidableEq

def ModelField.dict_class : ModelField → DictClass
  | ⟨.modeledDictionaryField, _, _⟩ => .hstoreModeledDictionary
  | _ => .hstoreDict

/-- The descriptor installed by `contribute_to_class`:
`HStoreField.contribute_to_class` (fields.py:24-26) installs
`HStoreDescriptor` (inherited by `DictionaryField` and
`ModeledDictionaryField`), while `ReferencesField.contribute_to_class`
(fields.py:121-123) installs `HStoreReferenceDescriptor`. -/
inductive DescriptorKind where
  | hstoreDescriptor
  | hstoreReferenceDescriptor
deriving Repr, DecidableEq

def ModelField.descriptor : ModelField → DescriptorKind
  | ⟨.referencesField, _, _⟩ => .hstoreReferenceDescriptor
  | _ => .hstoreDescriptor

/-- `to_python` of the field as seen by the descriptors: the base
`models.Field.to_python` (external to this repository) returns its
argument unchanged, which is what `DictionaryField` and
`ModeledDictionaryField` inherit; `ReferencesField.to_python`
(fields.py:137-138) returns the value if it is a dict and otherwise the
empty `HStoreReferenceDictionary({})` — itself a dict instance, here the
empty dict value. -/
def ModelField.to_python (f : ModelField) (value : PyVal) : PyVal :=
  match f.kind with
  | .referencesField =>
      match value with
      | .dict xs => .dict xs
      | _ => .dict []
  | _ => value

/-- What the descriptor leaves in the instance's attribute slot: a plain
value, or one of the wrapper dictionaries. The modeled wrapper appears
as a constructor so the claim that a schema-declaring field produces it
can be stated at all — no code path below builds it. -/
inductive AttrValue where
  | raw (v : PyVal)
  | base (d : HStoreDict)
  | reference (d : HStoreDict)
  | modeled (d : HStoreModeledDictionary)
deriving Repr

/-- `HStoreDescriptor.__set__` (descriptors.py:11-18): converts through
the field's `to_python`, wraps a dict result in
`HStoreDict(value=value, field=self.field, instance=obj)` — the class is
hardcoded, the field's `_dict_class` is not consulted — and stores
anything else unwrapped. -/
def HStoreDescriptor.set (f : ModelField) (obj value : PyVal) :
    Except PyError AttrValue :=
  let value := f.to_python value
  match value with
  | .dict xs =>
      match HStoreDict.init (.dict xs) (.obj f.id) obj .none with
      | .error e => .error e
      | .ok d => .ok (.base d)
  | v => .ok (.raw v)

/-- `HStoreReferenceDescriptor.__set__` (descriptors.py:21-28): same
shape, wrapping a dict result in `HStoreReferenceDictionary`. -/
def HStoreReferenceDescriptor.set (f : ModelField) (obj value : PyVal) :
    Except PyError AttrValue :=
  let value := f.to_python value
  match value with
  | .dict xs =>
      match HStoreDict.init (.dict xs) (.obj f.id) obj .none with
      | .error e => .error e
      | .ok d => .ok (.reference d)
  | v => .ok (.raw v)

/-- Assignment to the record attribute: dispatches to the descriptor that
`contribute_to_class` installed for this field. -/
def attrSet (f : ModelField) (obj value : PyVal) : Except PyError AttrValue :=
  match f.descriptor with
  | .hstoreDescriptor => HStoreDescriptor.set f obj value
  | .hstoreReferenceDescriptor => HStoreReferenceDescriptor.set f obj value

/-- `ModeledDictionaryField._init_dict_class` (fields.py:101-102):
`self._dict_class(value=value, field=self, schema=self.schema)`. -/
def ModeledDictionaryField.init_dict_class (f : ModelField) (value : PyVal) :
    Except PyError HStoreModeledDictionary :=
  HStoreModeledDictionary.init value (.obj f.id) .none .none f.schema

/-- A value is a fixpoint of the base coercion: writing it back through
`ensure_acceptable_value` leaves it unchanged. -/
def Coerced (v : PyVal) : Prop :=
  HStoreDict.ensure_acceptable_value v = .ok v

/-- Every value stored in the entry list is a coercion fixpoint. -/
def CoercedEntries (l : List (String × PyVal)) : Prop :=
  ∀ kv ∈ l, Coerced kv.2

theorem lookupEntry_setEntry (l : List (String × PyVal)) (k : String) (v : PyVal) :
    lookupEntry (setEntry l k v) k = some v := by
  induction l with
  | nil => simp [setEntry, lookupEntry]
  | cons kv rest ih =>
      obtain ⟨k', v'⟩ := kv
      by_cases h : k' = k
      · simp [setEntry, lookupEntry, h]
      · simp [setEntry, lookupEntry, h, ih]

theorem mem_setEntry {l : List (String × PyVal)} {k : String} {v : PyVal}
    {kv : String × PyVal} (h : kv ∈ setEntry l k v) : kv = (k, v) ∨ kv ∈ l := by
  induction l with
  | nil =>
      simp [setEntry] at h
      exact Or.inl h
  | cons kv' rest ih =>
      obtain ⟨k', v'⟩ := kv'
      by_cases hk : k' = k
      · simp [setEntry, hk] at h
        rcases h with h | h
        · exact Or.inl h
        · exact Or.inr (List.mem_cons_of_mem _ h)
      · simp [setEntry, hk] at h
        rcases h with h | h
        · exact Or.inr (by simp [h])
        · rcases ih h with h2 | h2
          · exact Or.inl h2
          · exact Or.inr (List.mem_cons_of_mem _ h2)

/-- Any value the base coercion produces has string form or is a
pass-through value, so coercing it again is the identity. -/
theorem ensure_acceptable_value_idem (v w : PyVal)
    (h : HStoreDict.ensure_acceptable_value v = .ok w) : Coerced w := by
  unfold Coerced
  cases v with
  | bool b =>
      simp [HStoreDict.ensure_acceptable_value] at h
      subst h; rfl
  | int n =>
      simp [HStoreDict.ensure_acceptable_value] at h
      subst h; rfl
  | float r =>
      simp [HStoreDict.ensure_acceptable_value] at h
      subst h; rfl
  | decimal r =>
      simp [HStoreDict.ensure_acceptable_value] at h
      subst h; rfl
  | list xs =>
      cases hj : json.dumps (.list xs) with
      | some s =>
          simp [HStoreDict.ensure_acceptable_value, hj] at h
          subst h; rfl
      | none => simp [HStoreDict.ensure_acceptable_value, hj] at h
  | dict xs =>
      cases hj : json.dumps (.dict xs) with
      | some s =>
          simp [HStoreDict.ensure_acceptable_value, hj] at h
          subst h; rfl
      | none => simp [HStoreDict.ensure_acceptable_value, hj] at h
  | none =>
      simp [HStoreDict.ensure_acceptable_value] at h
      subst h; rfl
  | str s =>
      simp [HStoreDict.ensure_acceptable_value] at h
      subst h; rfl
  | pickled v' =>
      simp [HStoreDict.ensure_acceptable_value] at h
      subst h; rfl
  | obj i =>
      simp [HStoreDict.ensure_acceptable_value] at h
      subst h; rfl

/-- The constructor's coercion loop yields only fixpoints. -/
theorem coerceEntries_coerced (xs ys : List (String × PyVal))
    (h : coerceEntries xs = .ok ys) : CoercedEntries ys := by
  induction xs generalizing ys with
  | nil =>
      simp [coerceEntries] at h
      subst h
      intro kv hkv
      cases hkv
  | cons kv rest ih =>
      obtain ⟨k, v⟩ := kv
      revert h
      simp only [coerceEntries]
      cases hv : HStoreDict.ensure_acceptable_value v with
      | error e => intro h; cases h
      | ok v' =>
          cases hrest : coerceEntries rest with
          | error e => intro h; cases h
          | ok rest' =>
              intro h
              cases h
              intro kv2 hkv2
              rcases List.mem_cons.mp hkv2 with h2 | h2
              · subst h2
                exact ensure_acceptable_value_idem v v' hv
              · exact ih rest' hrest kv2 h2

/-- C1: for a Schema-Constrained Mapping whose schema declares a key with
some type, writing a value of exactly that type under the key and reading
it back by index access returns the original value — the write path
pickles the value (a type-preserving binary encoding the base coercion
passes through unchanged) and the read path unpickles it, so
write-then-read is the identity on schema-typed values. In particular a
schema declaring "n" as integer gives back the integer 5, not the text
"5" (see the witness). -/
theorem modeled_write_read_roundtrip
    (d : HStoreModeledDictionary) (k : String) (opts : SchemaOptions) (v : PyVal)
    (hk : d.schemaGet k = some opts) (ht : v.typeOf = opts.type) :
    (d.setitem k v).bind (fun d' => d'.getitem k) = .ok v := by
  simp [HStoreModeledDictionary.setitem, HStoreModeledDictionary.ensure_acceptable_key,
        HStoreModeledDictionary.ensure_acceptable_value, hk, ht,
        HStoreDict.ensure_acceptable_value, Except.bind,
        HStoreModeledDictionary.getitem, lookupEntry_setEntry, pickle_loads]

/-- Witness for C1: with the schema declaring "n" as integer, writing the
integer 5 and reading "n" back returns the integer 5 (which is not the
text "5"). -/
theorem modeled_write_read_roundtrip_witness :
    ((HStoreModeledDictionary.setitem
        ⟨[("n", ⟨.intT, false, false, Option.none⟩)], [], .none, .none, .none⟩
        "n" (.int 5)).bind (fun d' => d'.getitem "n")) = .ok (.int 5)
    ∧ (PyVal.int 5 ≠ PyVal.str "5") :=
  ⟨modeled_write_read_roundtrip
      ⟨[("n", ⟨.intT, false, false, Option.none⟩)], [], .none, .none, .none⟩
      "n" ⟨.intT, false, false, Option.none⟩ (.int 5) rfl rfl,
   by simp⟩

/-- C2: on a Reference Mapping holding a raw identifier (text) under a
key, the first index read invokes the resolver once, overwrites the
in-memory entry with the resolved record and returns it; a second
consecutive read on the resulting mapping returns the same resolved
record with zero resolver invocations; and (last conjunct) any key whose
stored value is already non-text is returned as-is with the mapping
unchanged and the resolver not invoked. -/
theorem reference_memoization
    (acquire : String → PyVal) (d : HStoreDict) (k i : String) (r : Nat)
    (d₂ : HStoreDict) (k₂ : String) (v : PyVal)
    (hk : lookupEntry d.entries k = some (.str i))
    (hr : acquire i = .obj r)
    (hk₂ : lookupEntry d₂.entries k₂ = some v)
    (hv : v.typeOf ≠ .strT) :
    HStoreReferenceDictionary.getitem acquire d k =
      .ok (.obj r, { d with entries := setEntry d.entries k (.obj r) }, 1)
    ∧ HStoreReferenceDictionary.getitem acquire
        { d with entries := setEntry d.entries k (.obj r) } k =
      .ok (.obj r, { d with entries := setEntry d.entries k (.obj r) }, 0)
    ∧ HStoreReferenceDictionary.getitem acquire d₂ k₂ = .ok (v, d₂, 0) := by
  refine ⟨?_, ?_, ?_⟩
  · simp [HStoreReferenceDictionary.getitem, hk, hr, HStoreDict.setitem,
          HStoreDict.ensure_acceptable_value]
  · simp [HStoreReferenceDictionary.getitem, lookupEntry_setEntry]
  · cases v <;> simp_all [HStoreReferenceDictionary.getitem, PyVal.typeOf]

/-- Witness for C2: a mapping holding identifier "id1" under "a", with a
resolver returning record 42, resolves once, memoizes, and returns the
stored record as-is on the key "b" that already holds record 7. -/
theorem reference_memoization_witness :
    HStoreReferenceDictionary.getitem (fun _ => .obj 42)
        ⟨[("a", .str "id1")], .none, .none, .none⟩ "a" =
      .ok (.obj 42, ⟨[("a", .obj 42)], .none, .none, .none⟩, 1)
    ∧ HStoreReferenceDictionary.getitem (fun _ => .obj 42)
        ⟨[("a", .obj 42)], .none, .none, .none⟩ "a" =
      .ok (.obj 42, ⟨[("a", .obj 42)], .none, .none, .none⟩, 0)
    ∧ HStoreReferenceDictionary.getitem (fun _ => .obj 42)
        ⟨[("b", .obj 7)], .none, .none, .none⟩ "b" =
      .ok (.obj 7, ⟨[("b", .obj 7)], .none, .none, .none⟩, 0) :=
  reference_memoization (fun _ => .obj 42)
    ⟨[("a", .str "id1")], .none, .none, .none⟩ "a" "id1" 42
    ⟨[("b", .obj 7)], .none, .none, .none⟩ "b" (.obj 7)
    rfl rfl rfl (by simp [PyVal.typeOf])

/-- C6: writing any value under a key not declared in the schema of a
Schema-Constrained Mapping fails with `HStoreModelException` carrying the
message "<key> is not a valid key", regardless of the value; since the
write returns only the exception (the key check precedes any mutation),
the mapping's entries are unchanged by the failed write. -/
theorem modeled_undeclared_key_rejected
    (d : HStoreModeledDictionary) (k : String) (v : PyVal)
    (hk : d.schemaGet k = Option.none) :
    d.setitem k v = .error (.hstoreModelException (k ++ " is not a valid key")) := by
  simp [HStoreModeledDictionary.setitem, HStoreModeledDictionary.ensure_acceptable_key, hk]

/-- Witness for C6: a schema declaring only "n" rejects a write under "m"
with the message "m is not a valid key". -/
theorem modeled_undeclared_key_rejected_witness :
    HStoreModeledDictionary.setitem
        ⟨[("n", ⟨.intT, false, false, Option.none⟩)], [], .none, .none, .none⟩
        "m" (.int 5) =
      .error (.hstoreModelException "m is not a valid key") :=
  modeled_undeclared_key_rejected
    ⟨[("n", ⟨.intT, false, false, Option.none⟩)], [], .none, .none, .none⟩
    "m" (.int 5) rfl

/-- C10: the Schema-Constrained Mapping constructor validates the schema
but discards its `value`, `field`, `instance` and `connection` arguments
(they are not forwarded to the base constructor), so for any valid schema
the freshly constructed mapping has no entries and `None` back-references
regardless of those arguments — in particular (second conjunct) for the
field's dict-initialization helper `_init_dict_class`, which does pass a
value. -/
theorem modeled_init_discards_arguments
    (value field inst connection : PyVal)
    (schema : Option (List (String × SchemaOptionsIn)))
    (vs : List (String × SchemaOptions))
    (hs : validate_schema schema = .ok vs) :
    HStoreModeledDictionary.init value field inst connection schema =
      .ok ⟨vs, [], .none, .none, .none⟩
    ∧ ∀ fid : Nat,
        ModeledDictionaryField.init_dict_class ⟨.modeledDictionaryField, fid, schema⟩ value =
          .ok ⟨vs, [], .none, .none, .none⟩ := by
  constructor
  · simp [HStoreModeledDictionary.init, hs, HStoreDict.init, HStoreDict.init_convert_value, coerceEntries]
  · intro fid
    simp [ModeledDictionaryField.init_dict_class,
          HStoreModeledDictionary.init, hs, HStoreDict.init, HStoreDict.init_convert_value, coerceEntries]

/-- Witness for C10: constructing with a non-empty value, field, instance
and connection still yields an empty mapping with `None` back-references. -/
theorem modeled_init_discards_arguments_witness :
    HStoreModeledDictionary.init (.dict [("x", .int 1)]) (.obj 1) (.obj 2) (.obj 3)
        (some [("n", ⟨some .intT, Option.none, Option.none, Option.none⟩)]) =
      .ok ⟨[("n", ⟨.intT, false, false, Option.none⟩)], [], .none, .none, .none⟩ :=
  (modeled_init_discards_arguments (.dict [("x", .int 1)]) (.obj 1) (.obj 2) (.obj 3)
      (some [("n", ⟨some .intT, Option.none, Option.none, Option.none⟩)])
      [("n", ⟨.intT, false, false, Option.none⟩)] rfl).1

/-- C8 (code bug): `__copy__` passes `self.connection` as the third
positional argument, which is the constructor's `instance` parameter, so
on a mapping with entries `[("a","b")]`, field F₁, instance F₂ and
connection F₃ the copy keeps the entries and the field but has its
`instance` slot bound to the original's connection and its `connection`
slot left at `None` — not re-bound to the same connection as the spec
states. -/
theorem copy_misbinds_connection :
    HStoreDict.copy ⟨[("a", .str "b")], .obj 1, .obj 2, .obj 3⟩ =
      .ok ⟨[("a", .str "b")], .obj 1, .obj 3, .none⟩ := rfl

/-- C3 counterexample: constructing a Base Mapping from a mapping can
raise — a dictionary value holding a list that contains an opaque object
makes the coercion's JSON encoding raise `TypeError`, so "a mapping ...
never raises" fails. -/
theorem init_from_dict_raises_typeerror :
    HStoreDict.init (.dict [("k", .list [.obj 0])]) .none .none .none =
      .error .typeError := rfl

/-- C3 (amended): Base Mapping construction fails with
`HStoreDictException` exactly when the input is unacceptable — for text
input, a JSON parse failure (carrying the parser diagnostic) or a parsed
value that is not an object; and any input that is not text, not a
mapping and not `None`. `None` never raises (yielding an empty mapping),
and a mapping raises only the coercion's `TypeError` when one of its
values is a container holding a non-JSON-serializable object — otherwise
it is accepted with its values coerced. -/
theorem init_error_classification :
    (∀ (s : String) (e : String) (f i c : PyVal), json.loads s = .error e →
        HStoreDict.init (.str s) f i c =
          .error (.hstoreDictException
            "HStoreDict accepts only valid json formatted strings." (some e)))
    ∧ (∀ (s : String) (v : PyVal) (f i c : PyVal), json.loads s = .ok v →
        v.typeOf ≠ .dictT →
        HStoreDict.init (.str s) f i c =
          .error (.hstoreDictException
            "HStoreDict accepts only dictionary objects, None and json formatted string representations of json objects"
            Option.none))
    ∧ (∀ (v : PyVal) (f i c : PyVal), v.typeOf ≠ .strT → v.typeOf ≠ .dictT →
        v.typeOf ≠ .noneT →
        HStoreDict.init v f i c =
          .error (.hstoreDictException
            "HStoreDict accepts only dictionary objects, None and json formatted string representations of json objects"
            Option.none))
    ∧ (∀ f i c : PyVal, HStoreDict.init .none f i c = .ok ⟨[], f, i, c⟩)
    ∧ (∀ (xs ys : List (String × PyVal)) (f i c : PyVal),
        coerceEntries xs = .ok ys →
        HStoreDict.init (.dict xs) f i c = .ok ⟨ys, f, i, c⟩) := by
  refine ⟨?_, ?_, ?_, ?_, ?_⟩
  · intro s e f i c h
    simp [HStoreDict.init, HStoreDict.init_convert_value, h]
  · intro s v f i c h hv
    cases v <;> simp_all [HStoreDict.init, HStoreDict.init_convert_value, PyVal.typeOf]
  · intro v f i c h1 h2 h3
    cases v <;> simp_all [HStoreDict.init, HStoreDict.init_convert_value, PyVal.typeOf]
  · intro f i c
    simp [HStoreDict.init, HStoreDict.init_convert_value, coerceEntries]
  · intro xs ys f i c h
    simp [HStoreDict.init, HStoreDict.init_convert_value, h]

/-- Witness for C3: the invalid JSON text "[" is rejected with the parser
diagnostic, the JSON non-object "5" and the non-text non-mapping integer 7
are rejected with the type message, and `None` and a plain mapping are
accepted. -/
theorem init_error_classification_witness :
    HStoreDict.init (.str "[") .none .none .none =
      .error (.hstoreDictException
        "HStoreDict accepts only valid json formatted strings." (some "Expecting value"))
    ∧ HStoreDict.init (.str "5") .none .none .none =
      .error (.hstoreDictException
        "HStoreDict accepts only dictionary objects, None and json formatted string representations of json objects"
        Option.none)
    ∧ HStoreDict.init (.int 7) .none .none .none =
      .error (.hstoreDictException
        "HStoreDict accepts only dictionary objects, None and json formatted string representations of json objects"
        Option.none)
    ∧ HStoreDict.init .none .none .none .none = .ok ⟨[], .none, .none, .none⟩
    ∧ HStoreDict.init (.dict [("k", .int 1)]) .none .none .none =
      .ok ⟨[("k", .str "1")], .none, .none, .none⟩ :=
  ⟨init_error_classification.1 "[" "Expecting value" .none .none .none rfl,
   init_error_classification.2.1 "5" (.int 5) .none .none .none rfl (by simp [PyVal.typeOf]),
   init_error_classification.2.2.1 (.int 7) .none .none .none
     (by simp [PyVal.typeOf]) (by simp [PyVal.typeOf]) (by simp [PyVal.typeOf]),
   init_error_classification.2.2.2.1 .none .none .none,
   init_error_classification.2.2.2.2 [("k", .int 1)] [("k", .str "1")] .none .none .none rfl⟩

/-- C4 counterexample: Value Coercion is not total on accepted inputs —
coercing a list that contains an opaque object raises the JSON encoder's
`TypeError` instead of returning a text form. -/
theorem coerce_list_with_object_raises :
    HStoreDict.ensure_acceptable_value (.list [.obj 0]) = .error .typeError := rfl

/-- C4 (amended): Value Coercion maps `True` to the text "true" and
`False` to "false" (case-exact lowercase); integers, floats and decimals
to their decimal text representation; lists and mappings to their JSON
text encoding whenever that encoding exists; and returns every other
value (text, `None`, bytes, opaque records) unchanged. It never raises on
those inputs; the only failing inputs are lists and mappings whose JSON
encoding raises `TypeError` because a nested value is not serializable. -/
theorem coerce_specification :
    HStoreDict.ensure_acceptable_value (.bool true) = .ok (.str "true")
    ∧ HStoreDict.ensure_acceptable_value (.bool false) = .ok (.str "false")
    ∧ (∀ n : Int, HStoreDict.ensure_acceptable_value (.int n) = .ok (.str (toString n)))
    ∧ (∀ r : String, HStoreDict.ensure_acceptable_value (.float r) = .ok (.str r))
    ∧ (∀ r : String, HStoreDict.ensure_acceptable_value (.decimal r) = .ok (.str r))
    ∧ (∀ (xs : List PyVal) (s : String), json.dumps (.list xs) = some s →
        HStoreDict.ensure_acceptable_value (.list xs) = .ok (.str s))
    ∧ (∀ (xs : List (String × PyVal)) (s : String), json.dumps (.dict xs) = some s →
        HStoreDict.ensure_acceptable_value (.dict xs) = .ok (.str s))
    ∧ (∀ v : PyVal, v.typeOf ≠ .boolT → v.typeOf ≠ .intT → v.typeOf ≠ .floatT →
        v.typeOf ≠ .decimalT → v.typeOf ≠ .listT → v.typeOf ≠ .dictT →
        HStoreDict.ensure_acceptable_value v = .ok v)
    ∧ (∀ v : PyVal, HStoreDict.ensure_acceptable_value v = .error .typeError →
        (v.typeOf = .listT ∨ v.typeOf = .dictT) ∧ json.dumps v = Option.none) := by
  refine ⟨rfl, rfl, fun n => rfl, fun r => rfl, fun r => rfl, ?_, ?_, ?_, ?_⟩
  · intro xs s h
    simp [HStoreDict.ensure_acceptable_value, h, force_text]
  · intro xs s h
    simp [HStoreDict.ensure_acceptable_value, h, force_text]
  · intro v h1 h2 h3 h4 h5 h6
    cases v <;> simp_all [HStoreDict.ensure_acceptable_value, PyVal.typeOf]
  · intro v h
    cases v <;>
      simp_all [HStoreDict.ensure_acceptable_value, PyVal.typeOf] <;>
      [skip; skip] <;>
      first
      | (rename_i xs
         cases hj : json.dumps (.list xs) <;> simp_all)
      | (rename_i xs
         cases hj : json.dumps (.dict xs) <;> simp_all)

/-- Witness for C4: the integer -7 coerces to "-7", the list [1, "a"] to
its JSON text, and the opaque record 3 passes through unchanged. -/
theorem coerce_specification_witness :
    HStoreDict.ensure_acceptable_value (.int (-7)) = .ok (.str "-7")
    ∧ HStoreDict.ensure_acceptable_value (.list [.int 1, .str "a"]) =
        .ok (.str "[1, \"a\"]")
    ∧ HStoreDict.ensure_acceptable_value (.obj 3) = .ok (.obj 3) :=
  ⟨coerce_specification.2.2.1 (-7),
   coerce_specification.2.2.2.2.2.1 [.int 1, .str "a"] "[1, \"a\"]" rfl,
   coerce_specification.2.2.2.2.2.2.2.1 (.obj 3)
     (by simp [PyVal.typeOf]) (by simp [PyVal.typeOf]) (by simp [PyVal.typeOf])
     (by simp [PyVal.typeOf]) (by simp [PyVal.typeOf]) (by simp [PyVal.typeOf])⟩

/-- C5 counterexample: constructing a Base Mapping from the empty string
does not yield an empty mapping — the empty string is not valid JSON, so
construction raises `HStoreDictException` with the parser's "Expecting
value" diagnostic. -/
theorem from_empty_text_raises :
    HStoreDict.init (.str "") .none .none .none =
      .error (.hstoreDictException
        "HStoreDict accepts only valid json formatted strings." (some "Expecting value")) := rfl

/-- C5 (amended): serialization of an empty Base Mapping yields the empty
string and a non-empty mapping yields the JSON encoding of its entries
(when they are JSON-serializable, as coerced entries are); constructing
from `None` yields an empty mapping, but constructing from the empty
string raises `HStoreDictException`, since the empty string does not
parse as JSON. -/
theorem serialization_empty_and_none :
    (∀ f i c : PyVal, HStoreDict.unicode ⟨[], f, i, c⟩ = .ok "")
    ∧ (∀ (d : HStoreDict) (s : String), d.entries ≠ [] →
        json.dumps (.dict d.entries) = some s → d.unicode = .ok s)
    ∧ (∀ f i c : PyVal, HStoreDict.init .none f i c = .ok ⟨[], f, i, c⟩)
    ∧ (∀ f i c : PyVal, HStoreDict.init (.str "") f i c =
        .error (.hstoreDictException
          "HStoreDict accepts only valid json formatted strings."
          (some "Expecting value"))) := by
  refine ⟨?_, ?_, ?_, ?_⟩
  · intro f i c
    simp [HStoreDict.unicode]
  · intro d s hne hdump
    unfold HStoreDict.unicode
    cases hd : d.entries with
    | nil => exact absurd hd hne
    | cons kv rest =>
        rw [hd] at hdump
        simp [hdump, force_text]
  · intro f i c
    simp [HStoreDict.init, HStoreDict.init_convert_value, coerceEntries]
  · intro f i c
    rfl

/-- Witness for C5: the empty mapping serializes to "", the mapping
with entry ("a","b") serializes to its JSON encoding, `None` constructs
an empty mapping, and the empty string raises. -/
theorem serialization_empty_and_none_witness :
    HStoreDict.unicode ⟨[], .none, .none, .none⟩ = .ok ""
    ∧ HStoreDict.unicode ⟨[("a", .str "b")], .none, .none, .none⟩ =
        .ok "\x7b\"a\": \"b\"\x7d"
    ∧ HStoreDict.init .none .none .none .none = .ok ⟨[], .none, .none, .none⟩
    ∧ HStoreDict.init (.str "") .none .none .none =
        .error (.hstoreDictException
          "HStoreDict accepts only valid json formatted strings."
          (some "Expecting value")) :=
  ⟨serialization_empty_and_none.1 .none .none .none,
   serialization_empty_and_none.2.1 ⟨[("a", .str "b")], .none, .none, .none⟩
     "\x7b\"a\": \"b\"\x7d" (by simp) rfl,
   serialization_empty_and_none.2.2.1 .none .none .none,
   serialization_empty_and_none.2.2.2 .none .none .none⟩

/-- C7 counterexample: a write can leave a non-text value in the mapping —
writing the opaque record 5 stores it unchanged (the coercion passes
opaque objects through), so "no non-text value is ever held internally
after a write" fails for the Base Mapping itself, not only the
reference/typed variants. -/
theorem setitem_stores_nontext :
    HStoreDict.setitem ⟨[], .none, .none, .none⟩ "k" (.obj 5) =
      .ok ⟨[("k", .obj 5)], .none, .none, .none⟩
    ∧ (PyVal.obj 5).typeOf ≠ .strT :=
  ⟨rfl, by simp [PyVal.typeOf]⟩

/-- C7 (amended): the invariant preserved by construction and by every
write is that every stored raw value is a fixpoint of Value Coercion —
coercing it again is the identity. Coercion output is always such a
fixpoint (first conjunct), construction stores only coerced values
(second), and every successful write preserves the property (third).
Values that coercion converts are thus held in text form, but
pass-through values (opaque records, as already written back by the
reference variant) may be held in non-text form. -/
theorem stored_values_are_coercion_fixpoints :
    (∀ v w : PyVal, HStoreDict.ensure_acceptable_value v = .ok w → Coerced w)
    ∧ (∀ (value f i c : PyVal) (d : HStoreDict),
        HStoreDict.init value f i c = .ok d → CoercedEntries d.entries)
    ∧ (∀ (d d' : HStoreDict) (k : String) (v : PyVal),
        CoercedEntries d.entries → HStoreDict.setitem d k v = .ok d' →
        CoercedEntries d'.entries) := by
  refine ⟨ensure_acceptable_value_idem, ?_, ?_⟩
  · intro value f i c d h
    unfold HStoreDict.init at h
    split at h
    · exact absurd h (by simp)
    · rename_i xs hstep
      split at h
      · exact absurd h (by simp)
      · rename_i ys hc
        cases h
        exact coerceEntries_coerced xs ys hc
    · exact absurd h (by simp)
  · intro d d' k v hd h
    unfold HStoreDict.setitem at h
    split at h
    · exact absurd h (by simp)
    · rename_i v' hv
      cases h
      intro kv hkv
      rcases mem_setEntry hkv with h2 | h2
      · subst h2
        exact ensure_acceptable_value_idem v v' hv
      · exact hd kv h2

/-- Witness for C7: the entries produced by constructing from
the mapping with entry ("a", 1) — namely [("a", "1")] — are coercion
fixpoints, and so are the entries after writing the boolean `True`
under "b". -/
theorem stored_values_are_coercion_fixpoints_witness :
    CoercedEntries ([("a", PyVal.str "1")])
    ∧ CoercedEntries ([("a", PyVal.str "1"), ("b", PyVal.str "true")]) :=
  ⟨stored_values_are_coercion_fixpoints.2.1 (.dict [("a", .int 1)]) .none .none .none
      ⟨[("a", .str "1")], .none, .none, .none⟩ rfl,
   stored_values_are_coercion_fixpoints.2.2
      ⟨[("a", .str "1")], .none, .none, .none⟩
      ⟨[("a", .str "1"), ("b", .str "true")], .none, .none, .none⟩
      "b" (.bool true)
      (stored_values_are_coercion_fixpoints.2.1 (.dict [("a", .int 1)]) .none .none .none
        ⟨[("a", .str "1")], .none, .none, .none⟩ rfl)
      rfl⟩

/-- C9 counterexample: assigning a plain mapping to the attribute of a
field declaring the Schema-Constrained variant (`ModeledDictionaryField`,
whose `_dict_class` is `HStoreModeledDictionary`) stores a Base Mapping
wrapper, not a Schema-Constrained one — the installed `HStoreDescriptor`
hardcodes `HStoreDict`. -/
theorem modeled_field_assignment_yields_base :
    attrSet
        ⟨.modeledDictionaryField, 0,
          some [("n", ⟨some .intT, Option.none, Option.none, Option.none⟩)]⟩
        (.obj 9) (.dict []) =
      .ok (.base ⟨[], .obj 0, .obj 9, .none⟩)
    ∧ ModelField.dict_class
        ⟨.modeledDictionaryField, 0,
          some [("n", ⟨some .intT, Option.none, Option.none, Option.none⟩)]⟩ =
      .hstoreModeledDictionary :=
  ⟨rfl, rfl⟩

/-- C9 (amended): the descriptor stores a wrapper bound to the field and
the instance, but the wrapper variant follows the installed descriptor,
not the field's declared dictionary class: fields with the base
descriptor (base and Schema-Constrained alike) always wrap a plain
mapping in the Base Mapping, the reference field wraps it in a Reference
Mapping, a non-mapping value is stored unwrapped by the base descriptor,
and the reference field's conversion replaces a non-mapping by an empty
Reference Mapping bound to the field and instance. -/
theorem descriptor_assignment_specification :
    (∀ (f : ModelField) (obj : PyVal) (xs ys : List (String × PyVal)),
        f.kind ≠ .referencesField → coerceEntries xs = .ok ys →
        attrSet f obj (.dict xs) = .ok (.base ⟨ys, .obj f.id, obj, .none⟩))
    ∧ (∀ (f : ModelField) (obj : PyVal) (xs ys : List (String × PyVal)),
        f.kind = .referencesField → coerceEntries xs = .ok ys →
        attrSet f obj (.dict xs) = .ok (.reference ⟨ys, .obj f.id, obj, .none⟩))
    ∧ (∀ (f : ModelField) (obj v : PyVal),
        f.kind ≠ .referencesField → v.typeOf ≠ .dictT →
        attrSet f obj v = .ok (.raw v))
    ∧ (∀ (f : ModelField) (obj v : PyVal),
        f.kind = .referencesField → v.typeOf ≠ .dictT →
        attrSet f obj v = .ok (.reference ⟨[], .obj f.id, obj, .none⟩)) := by
  refine ⟨?_, ?_, ?_, ?_⟩
  · intro f obj xs ys hf hc
    obtain ⟨kind, fid, fschema⟩ := f
    cases kind <;> simp_all [attrSet, ModelField.descriptor, HStoreDescriptor.set,
      ModelField.to_python, HStoreDict.init, HStoreDict.init_convert_value, hc]
  · intro f obj xs ys hf hc
    obtain ⟨kind, fid, fschema⟩ := f
    cases kind <;> simp_all [attrSet, ModelField.descriptor,
      HStoreReferenceDescriptor.set, ModelField.to_python, HStoreDict.init, HStoreDict.init_convert_value, hc]
  · intro f obj v hf hv
    obtain ⟨kind, fid, fschema⟩ := f
    cases kind <;> cases v <;>
      simp_all [attrSet, ModelField.descriptor, HStoreDescriptor.set,
        ModelField.to_python, PyVal.typeOf]
  · intro f obj v hf hv
    obtain ⟨kind, fid, fschema⟩ := f
    cases kind <;> cases v <;>
      simp_all [attrSet, ModelField.descriptor, HStoreReferenceDescriptor.set,
        ModelField.to_python, PyVal.typeOf, HStoreDict.init, HStoreDict.init_convert_value, coerceEntries]

/-- Witness for C9: a modeled field stores a Base Mapping wrapper for a
plain mapping, a references field stores a Reference Mapping wrapper, a
dictionary field stores a non-mapping unwrapped, and a references field
stores an empty bound Reference Mapping for a non-mapping. -/
theorem descriptor_assignment_specification_witness :
    attrSet ⟨.modeledDictionaryField, 0, Option.none⟩ (.obj 9) (.dict [("k", .int 1)]) =
      .ok (.base ⟨[("k", .str "1")], .obj 0, .obj 9, .none⟩)
    ∧ attrSet ⟨.referencesField, 1, Option.none⟩ (.obj 9) (.dict [("k", .int 1)]) =
      .ok (.reference ⟨[("k", .str "1")], .obj 1, .obj 9, .none⟩)
    ∧ attrSet ⟨.dictionaryField, 2, Option.none⟩ (.obj 9) (.int 3) = .ok (.raw (.int 3))
    ∧ attrSet ⟨.referencesField, 3, Option.none⟩ (.obj 9) (.int 3) =
      .ok (.reference ⟨[], .obj 3, .obj 9, .none⟩) :=
  ⟨descriptor_assignment_specification.1 ⟨.modeledDictionaryField, 0, Option.none⟩
      (.obj 9) [("k", .int 1)] [("k", .str "1")] (by simp) rfl,
   descriptor_assignment_specification.2.1 ⟨.referencesField, 1, Option.none⟩
      (.obj 9) [("k", .int 1)] [("k", .str "1")] rfl rfl,
   descriptor_assignment_specification.2.2.1 ⟨.dictionaryField, 2, Option.none⟩
      (.obj 9) (.int 3) (by simp) (by simp [PyVal.typeOf]),
   descriptor_assignment_specification.2.2.2 ⟨.referencesField, 3, Option.none⟩
      (.obj 9) (.int 3) rfl (by simp [PyVal.typeOf])⟩
